import Mathlib

/-!
Verification of the OpenBlok frame transport and staging engine
(`modules/ob_storage.py`) via a shallow embedding in Lean 4.

Conventions of the embedding:
* Bytes are `Nat` values; a well-formed byte is `< 256` (uint8).
* A numpy array handed to `add_frame` is modelled by `PyFrame`:
  `height`/`width` are the first two entries of `frame.shape`, `itemBytes`
  is the number of bytes each `(row, col)` cell contributes to
  `frame.tobytes()` (channels times dtype width; 3 for a 3-channel uint8
  frame), and `data` is the row-major byte list `frame.tobytes()` yields.
* The Redis database is modelled by `RedisState`: a map from hash keys to
  frame records and a map from list keys to string lists.  Pipelined
  command sequences become one pure state transition.
* Python exceptions become constructors of explicit error types named
  after the exception the interpreter actually raises, and every
  fallible operation returns its resulting state alongside an `Except`.
* Nondeterministic inputs (uuid4 results, clock readings) are passed in
  as explicit parameters.
-/

/-- Python dict assignment `m[k] = v`: replaces in place when the key is
present (keeping its position, CPython insertion order), appends otherwise. -/
def dictInsert {α : Type} (m : List (String × α)) (k : String) (v : α) :
    List (String × α) :=
  if m.any (fun p => p.1 = k) then
    m.map (fun p => if p.1 = k then (k, v) else p)
  else
    m ++ [(k, v)]

/-- A metadata value: JSON strings or numbers (timing fields). -/
inductive MetaVal where
  | str (s : String)
  | num (n : Nat)
deriving DecidableEq, Repr

/-- Model of a numpy array as seen by `ob_storage.py`: `shape[:2]` gives
`(height, width)` and `tobytes()` gives `data`, whose length is
`height * width * itemBytes` for a C-contiguous array. -/
structure PyFrame where
  height : Nat
  width : Nat
  itemBytes : Nat
  data : List Nat
deriving DecidableEq, Repr

/-- Big-endian 4-byte encoding of a uint32, one field of
`struct.pack(">II", ...)` (ob_storage.py line 111).  `struct.pack` raises
on values `≥ 2^32`; this function is only applied under that bound. -/
def packU32BE (n : Nat) : List Nat :=
  [n / 2 ^ 24 % 256, n / 2 ^ 16 % 256, n / 2 ^ 8 % 256, n % 256]

/-- Big-endian read of four bytes, one field of `struct.unpack(">II", ...)`
(ob_storage.py line 144). -/
def readU32BE (b0 b1 b2 b3 : Nat) : Nat :=
  ((b0 * 256 + b1) * 256 + b2) * 256 + b3

/-- The payload bytes the encode step of `add_frame` (ob_storage.py lines
110-112) produces on `struct.pack`'s valid domain
(`height, width < 2^32`): `struct.pack(">II", height, width) +
frame.tobytes()`.  No validation of channel count or dtype is performed
by the source.  Outside that domain `struct.pack` raises `struct.error`;
that path is modelled where the encode step is invoked (`add_frame`),
which guards this function with the domain check. -/
def encode_frame (f : PyFrame) : List Nat :=
  packU32BE f.height ++ packU32BE f.width ++ f.data

/-- Failure of the encode step: `struct.pack(">II", h, w)` raises
`struct.error: argument out of range` when a dimension is `≥ 2^32`. -/
inductive EncodeErr where
  | structErrorOutOfRange
deriving DecidableEq, Repr

/-- Failures of the decode step of `get_frame`, named after the Python
exception raised. -/
inductive DecodeErr where
  /-- `struct.unpack(">II", b[:8])` raises `struct.error` when fewer than
  8 bytes are available. -/
  | structErrorShortHeader
  /-- `np.frombuffer(buf, dtype=np.uint8, count=h*w*3)` raises
  `ValueError` when the buffer holds fewer than `count` bytes. -/
  | valueErrorBufferTooSmall
deriving DecidableEq, Repr

/-- The decode step of `get_frame` (ob_storage.py lines 144-148): unpack
the 8-byte big-endian header, then `np.frombuffer(rest, dtype=np.uint8,
count=h*w*3).reshape(h, w, 3)`.  `np.frombuffer` with an explicit `count`
takes exactly the first `count` bytes and raises `ValueError` when fewer
are available; the subsequent `reshape` of `h*w*3` elements to
`(h, w, 3)` always succeeds. -/
def decode_frame (payload : List Nat) : Except DecodeErr PyFrame :=
  match payload with
  | b0 :: b1 :: b2 :: b3 :: b4 :: b5 :: b6 :: b7 :: rest =>
    let h := readU32BE b0 b1 b2 b3
    let w := readU32BE b4 b5 b6 b7
    if h * w * 3 ≤ rest.length then
      .ok { height := h, width := w, itemBytes := 3, data := rest.take (h * w * 3) }
    else
      .error .valueErrorBufferTooSmall
  | _ => .error .structErrorShortHeader

lemma readU32BE_packU32BE (n : Nat) (h : n < 2 ^ 32) :
    readU32BE (n / 2 ^ 24 % 256) (n / 2 ^ 16 % 256) (n / 2 ^ 8 % 256) (n % 256) = n := by
  simp only [readU32BE]
  omega

/-- One Redis hash holding a frame record, with the three fields `hset` by
`add_frame` (ob_storage.py lines 118-120).  `metadata` is the parsed form
of the JSON document stored under the `metadata` field; `addFrameTime` is
the opaque timing scalar stored under `add_frame_time`. -/
structure RecordHash where
  frame : List Nat
  metadata : List (String × MetaVal)
  addFrameTime : Nat
deriving DecidableEq, Repr

/-- The Redis database: `hashes` maps a hash key to its record, `lists`
maps a list key to its contents (head of list = next `blpop` result). -/
structure RedisState where
  hashes : String → Option RecordHash
  lists : String → List String

/-- A database holding no keys. -/
def emptyRedis : RedisState :=
  { hashes := fun _ => none, lists := fun _ => [] }

/-- Result of `add_frame`: the database after the call, the caller's
metadata dict as observable after the call (Python dicts are passed by
reference, and line 114 `metadata[f"{queue_name}UUID"] = ...` mutates the
caller's object in place; explicit state passing makes that aliasing
visible as `metadata_after`), and either the returned uuid or the
exception the call raised. -/
structure AddFrameResult where
  state : RedisState
  metadata_after : List (String × MetaVal)
  result : Except EncodeErr String

/-- `RedisStorageManager.add_frame` (ob_storage.py lines 100-124).  The
fresh `str(uuid.uuid4())` and the measured ingest latency are passed in as
`frame_uuid` and `t`.  Line 111's `struct.pack(">II", height, width)`
raises `struct.error` for a dimension `≥ 2^32`; that happens before the
line-114 dict mutation and before any store command, so on that path the
database and the caller's mapping are both untouched.  Otherwise the
pipelined `hset`/`hset`/`hset`/`rpush` become one state transition:
record written under `"{queue_name}:{uuid}"`, uuid appended to the tail
of `"{queue_name}_queue"`.  A `None` metadata default is the empty dict
`[]`. -/
def add_frame (s : RedisState) (queue_name : String) (frame : PyFrame)
    (metadata : List (String × MetaVal)) (frame_uuid : String) (t : Nat) :
    AddFrameResult :=
  if frame.height < 2 ^ 32 ∧ frame.width < 2 ^ 32 then
    let md := dictInsert metadata (queue_name ++ "UUID") (.str frame_uuid)
    let key := queue_name ++ ":" ++ frame_uuid
    let qkey := queue_name ++ "_queue"
    let record : RecordHash :=
      { frame := encode_frame frame, metadata := md, addFrameTime := t }
    { state :=
        { hashes := fun k => if k = key then some record else s.hashes k,
          lists := fun k => if k = qkey then s.lists qkey ++ [frame_uuid] else s.lists k },
      metadata_after := md,
      result := .ok frame_uuid }
  else
    { state := s, metadata_after := metadata, result := .error .structErrorOutOfRange }

/-- Failures of `get_frame`, named after the Python exception raised. -/
inductive GetErr where
  /-- `blpop` returned `None` after its 30 s timeout and line 132
  subscripts it: `TypeError: 'NoneType' object is not subscriptable`. -/
  | typeErrorNoneSubscript
  /-- The record hash is absent, so `hgetall` returns `{}` and line 144
  raises `KeyError: 'frame'`. -/
  | keyErrorFrame
  /-- The payload failed to decode. -/
  | decode (e : DecodeErr)
deriving DecidableEq, Repr

/-- The successful result of `get_frame`: the decoded frame and the
returned metadata dict (with `get_frame_time` appended, line 155). -/
structure GetFrameResult where
  frame : PyFrame
  metadata : List (String × MetaVal)
deriving DecidableEq, Repr

/-- The record fetch/delete/decode part of `get_frame` (ob_storage.py
lines 136-157), after a uuid is in hand.  The pipeline runs `hgetall` and
(when `delete_frame`) `del` together, so the record is deleted even when
the later decode fails; the resulting state is therefore returned in both
outcomes.  `t` is the measured `get_frame_time` value. -/
def get_frame_fetch (s : RedisState) (queue_name : String)
    (delete_frame : Bool) (frame_uuid : String) (t : Nat) :
    RedisState × Except GetErr GetFrameResult :=
  let key := queue_name ++ ":" ++ frame_uuid
  match s.hashes key with
  | none => (s, .error .keyErrorFrame)
  | some r =>
    let s2 : RedisState :=
      if delete_frame then
        { s with hashes := fun k => if k = key then none else s.hashes k }
      else s
    match decode_frame r.frame with
    | .error e => (s2, .error (.decode e))
    | .ok f =>
      (s2, .ok { frame := f,
                 metadata := dictInsert r.metadata "get_frame_time" (.num t) })

/-- `RedisStorageManager.get_frame` (ob_storage.py lines 126-157).  With
no explicit uuid it runs `blpop([f"{queue_name}_queue"], timeout=30)`; in
this sequential model an empty queue is a queue that stays empty for the
whole wait, upon which `blpop` returns `None` and line 132 raises
`TypeError`.  Otherwise the popped (or given) uuid is fetched. -/
def get_frame (s : RedisState) (queue_name : String) (delete_frame : Bool)
    (frame_uuid : Option String) (t : Nat) :
    RedisState × Except GetErr GetFrameResult :=
  match frame_uuid with
  | some u => get_frame_fetch s queue_name delete_frame u t
  | none =>
    let qkey := queue_name ++ "_queue"
    match s.lists qkey with
    | [] => (s, .error .typeErrorNoneSubscript)
    | u :: rest =>
      get_frame_fetch
        { s with lists := fun k => if k = qkey then rest else s.lists k }
        queue_name delete_frame u t

/-- Failure of `move_frame`: Redis `RENAME` with a missing source key
raises `redis.ResponseError: no such key`. -/
inductive MoveErr where
  | renameNoSuchKey
deriving DecidableEq, Repr

/-- `RedisStorageManager.move_frame` (ob_storage.py lines 169-174):
`RENAME "{queue_name}:{uuid}" -> "{new_queue_name}:{uuid}"` followed by
`rpush(new_queue_name, frame_uuid)`.  Note the source pushes onto the key
`new_queue_name` itself, not `f"{new_queue_name}_queue"`. -/
def move_frame (s : RedisState) (queue_name new_queue_name frame_uuid : String) :
    RedisState × Except MoveErr Unit :=
  let oldKey := queue_name ++ ":" ++ frame_uuid
  let newKey := new_queue_name ++ ":" ++ frame_uuid
  match s.hashes oldKey with
  | none => (s, .error .renameNoSuchKey)
  | some r =>
    let s1 : RedisState :=
      { s with hashes := fun k =>
          if k = newKey then some r
          else if k = oldKey then none
          else s.hashes k }
    ({ s1 with lists := fun k =>
         if k = new_queue_name then s1.lists new_queue_name ++ [frame_uuid]
         else s1.lists k },
     .ok ())

/-- `RedisStorageManager.delete_frame` (ob_storage.py lines 176-180):
`del "{queue_name}:{uuid}"`; deleting a missing key is a Redis no-op. -/
def delete_frame (s : RedisState) (queue_name frame_uuid : String) : RedisState :=
  let key := queue_name ++ ":" ++ frame_uuid
  { s with hashes := fun k => if k = key then none else s.hashes k }

/-- State of the `LocalStorageManager` singleton: the running byte total
`current_size` and, for verification, the chronological log of file paths
handed to `cv2.imwrite`. -/
structure LocalCache where
  current_size : Nat
  writes : List String
deriving DecidableEq, Repr

/-- The file path used by `add_image` (ob_storage.py line 68):
`os.path.join(self.path, self.session_id, str(frame_name) + ".png")`. -/
def image_path (root session_id frame_name : String) : String :=
  root ++ "/" ++ session_id ++ "/" ++ frame_name ++ ".png"

/-- `LocalStorageManager.add_image` (ob_storage.py lines 59-72) for an
explicitly supplied `frame_name`.  Configuration is passed in: `enabled`
is `storage.local.enabled`, `max_size_bytes` the capacity.  When disabled
it returns immediately; when `current_size < max_size_bytes` it writes
the PNG (whose on-disk size `fsize` is an input of the model, being the
output of the opaque `cv2.imwrite`) and adds that size; otherwise it only
prints a warning. -/
def add_image (enabled : Bool) (max_size_bytes : Nat) (root session_id : String)
    (c : LocalCache) (frame_name : String) (fsize : Nat) : LocalCache :=
  if enabled = false then c
  else if c.current_size < max_size_bytes then
    { current_size := c.current_size + fsize,
      writes := c.writes ++ [image_path root session_id frame_name] }
  else c

/-- The default of the `frame_name` parameter of `add_image`
(ob_storage.py line 59, `def add_image(self, frame, frame_name=uuid.uuid4())`).
Python evaluates a default argument expression once, when the `def`
statement runs; every call that omits `frame_name` therefore reuses this
single uuid value, modelled as one fixed (arbitrary) string. -/
def def_time_uuid : String := "1b671a64-40d5-491e-99b0-da01ff1f3341"

/-- A call of `add_image` that omits the `frame_name` argument. -/
def add_image_defaulted (enabled : Bool) (max_size_bytes : Nat)
    (root session_id : String) (c : LocalCache) (fsize : Nat) : LocalCache :=
  add_image enabled max_size_bytes root session_id c def_time_uuid fsize

/-- A concrete valid 1x1 3-channel uint8 frame. -/
def sampleFrame : PyFrame :=
  { height := 1, width := 1, itemBytes := 3, data := [10, 20, 30] }

/-- A concrete single-channel uint8 frame (shape `(2, 2)`, so
`tobytes()` yields 4 bytes while the header will declare `2*2*3 = 12`). -/
def oneChannelFrame : PyFrame :=
  { height := 2, width := 2, itemBytes := 1, data := [9, 9, 9, 9] }

/-- A concrete record as `add_frame` would store `sampleFrame`. -/
def sampleRecord : RecordHash :=
  { frame := encode_frame sampleFrame, metadata := [], addFrameTime := 0 }

/-- A database holding exactly one record, `"raw:x" -> sampleRecord`,
and no lists. -/
def oneRecordRedis : RedisState :=
  { hashes := fun k => if k = "raw:x" then some sampleRecord else none,
    lists := fun _ => [] }

/-- C2: decoding inverts encoding exactly.  For any frame that really is
a 3-channel, one-byte-per-channel pixel grid (`itemBytes = 3`, byte count
`height * width * 3`, uint32-representable dimensions, uint8 bytes), the
`get_frame` decode of the `add_frame` encode returns the frame itself,
byte-for-byte, with the same height and width. -/
theorem C2_roundtrip (f : PyFrame)
    (hc : f.itemBytes = 3)
    (hlen : f.data.length = f.height * f.width * 3)
    (hh : f.height < 2 ^ 32) (hw : f.width < 2 ^ 32)
    (hbytes : ∀ b ∈ f.data, b < 256) :
    decode_frame (encode_frame f) = .ok f := by
  obtain ⟨h, w, c, d⟩ := f
  simp only at hc hlen hh hw
  subst hc
  simp only [encode_frame, packU32BE, List.cons_append, List.nil_append,
    decode_frame, readU32BE_packU32BE h hh, readU32BE_packU32BE w hw]
  rw [if_pos (le_of_eq hlen.symm), ← hlen, List.take_length]

/-- Witness for C2 at the concrete frame `sampleFrame`. -/
theorem C2_roundtrip_witness :
    (sampleFrame.itemBytes = 3 ∧
      sampleFrame.data.length = sampleFrame.height * sampleFrame.width * 3 ∧
      sampleFrame.height < 2 ^ 32 ∧ sampleFrame.width < 2 ^ 32 ∧
      ∀ b ∈ sampleFrame.data, b < 256) ∧
    decode_frame (encode_frame sampleFrame) = .ok sampleFrame :=
  ⟨by decide,
   C2_roundtrip sampleFrame (by decide) (by decide) (by decide) (by decide)
     (by decide)⟩

/-- C4: a payload whose declared `height * width * 3` exceeds the byte
count that actually follows the 8-byte header fails to decode with the
buffer-too-small `ValueError` (the model of the spec's `DecodingError`);
no truncated or zero-padded frame is ever returned. -/
theorem C4_short_payload_fails (b0 b1 b2 b3 b4 b5 b6 b7 : Nat)
    (rest : List Nat)
    (hshort : rest.length < readU32BE b0 b1 b2 b3 * readU32BE b4 b5 b6 b7 * 3) :
    decode_frame (b0 :: b1 :: b2 :: b3 :: b4 :: b5 :: b6 :: b7 :: rest) =
      .error .valueErrorBufferTooSmall := by
  simp only [decode_frame]
  rw [if_neg (by omega)]

/-- Witness for C4: a header declaring a 1x1 frame (3 payload bytes
expected) followed by a single byte. -/
theorem C4_short_payload_fails_witness :
    ([9] : List Nat).length < readU32BE 0 0 0 1 * readU32BE 0 0 0 1 * 3 ∧
    decode_frame [0, 0, 0, 1, 0, 0, 0, 1, 9] = .error .valueErrorBufferTooSmall :=
  ⟨by decide, C4_short_payload_fails 0 0 0 1 0 0 0 1 [9] (by decide)⟩

/-- C5 counterexample: the claim says the encode step of `add_frame`
fails with `EncodingError` on a frame that is not 3-channel uint8.  On
the concrete single-channel 2x2 frame, `add_frame` does not fail
anywhere — it returns the uuid normally — and stores a record whose
payload header declares a 2x2x3 frame (12 bytes) over only 4 actual data
bytes — exactly the header/byte-count mismatch the claim says is
prevented — and that payload indeed no longer decodes. -/
theorem C5_counterexample :
    (add_frame emptyRedis "raw" oneChannelFrame [] "X" 0).result = .ok "X" ∧
    (add_frame emptyRedis "raw" oneChannelFrame [] "X" 0).state.hashes "raw:X" =
      some { frame := [0, 0, 0, 2, 0, 0, 0, 2, 9, 9, 9, 9],
             metadata := [("rawUUID", .str "X")], addFrameTime := 0 } ∧
    decode_frame [0, 0, 0, 2, 0, 0, 0, 2, 9, 9, 9, 9] =
      .error .valueErrorBufferTooSmall :=
  ⟨rfl, rfl, rfl⟩

/-- C5 amended: `add_frame` performs no channel or dtype validation and
raises no `EncodingError`.  For every frame with uint32-representable
dimensions (so that the header pack itself succeeds), at least one pixel,
and a per-cell byte count other than 3, `add_frame` completes normally —
returning the uuid — and stores a payload whose actual length differs
from the `8 + height * width * 3` bytes its header declares; the mismatch
is not detected at add time. -/
theorem C5_no_encode_validation (s : RedisState) (qn uuid : String)
    (f : PyFrame) (m : List (String × MetaVal)) (t : Nat)
    (hh : f.height < 2 ^ 32) (hw : f.width < 2 ^ 32)
    (hc : f.itemBytes ≠ 3)
    (hpos : 0 < f.height * f.width)
    (hlen : f.data.length = f.height * f.width * f.itemBytes) :
    (add_frame s qn f m uuid t).result = .ok uuid ∧
    (add_frame s qn f m uuid t).state.hashes (qn ++ ":" ++ uuid) =
      some { frame := encode_frame f,
             metadata := dictInsert m (qn ++ "UUID") (.str uuid),
             addFrameTime := t } ∧
    (encode_frame f).length ≠ 8 + f.height * f.width * 3 := by
  have hcond : f.height < 2 ^ 32 ∧ f.width < 2 ^ 32 := ⟨hh, hw⟩
  refine ⟨?_, ?_, ?_⟩
  · simp only [add_frame]
    rw [if_pos hcond]
  · simp only [add_frame]
    rw [if_pos hcond]
    simp
  · simp only [encode_frame, packU32BE, List.length_append, List.length_cons,
      List.length_nil, hlen]
    intro hcontra
    exact hc (Nat.eq_of_mul_eq_mul_left hpos (by omega))

/-- Witness for the amended C5 at the concrete single-channel frame. -/
theorem C5_no_encode_validation_witness :
    (oneChannelFrame.height < 2 ^ 32 ∧ oneChannelFrame.width < 2 ^ 32 ∧
      oneChannelFrame.itemBytes ≠ 3 ∧ 0 < oneChannelFrame.height * oneChannelFrame.width ∧
      oneChannelFrame.data.length =
        oneChannelFrame.height * oneChannelFrame.width * oneChannelFrame.itemBytes) ∧
    ((add_frame emptyRedis "raw" oneChannelFrame [] "X" 0).result = .ok "X" ∧
     (add_frame emptyRedis "raw" oneChannelFrame [] "X" 0).state.hashes "raw:X" =
      some { frame := encode_frame oneChannelFrame,
             metadata := dictInsert [] "rawUUID" (.str "X"),
             addFrameTime := 0 } ∧
     (encode_frame oneChannelFrame).length ≠
       8 + oneChannelFrame.height * oneChannelFrame.width * 3) :=
  ⟨by decide,
   C5_no_encode_validation emptyRedis "raw" "X" oneChannelFrame [] 0
     (by decide) (by decide) (by decide) (by decide) (by decide)⟩

/-- C3: evaluation of the code at the failing input.  With the stage
queue empty for the full 30 s wait, `blpop` returns `None` and line 132
subscripts it: the call terminates, but by raising
`TypeError: 'NoneType' object is not subscriptable`, not by signalling a
dedicated `QueueEmpty`/`Timeout` condition; the database is untouched. -/
theorem C3_timeout_raises_type_error :
    (get_frame emptyRedis "raw" true none 0).2 = .error .typeErrorNoneSubscript ∧
    (get_frame emptyRedis "raw" true none 0).1 = emptyRedis :=
  ⟨rfl, rfl⟩

/-- C1: evaluation of the code at the failing input.  Starting from a
database holding the record `"raw:x"`, `move_frame "raw" "rotated" "x"`
leaves the stage queue `"rotated_queue"` empty and instead appends `"x"`
to the list stored under the bare key `"rotated"` (line 174 omits the
`_queue` suffix every other queue operation uses), so a consumer calling
`get_frame "rotated"` with no explicit id blocks on `"rotated_queue"`
and times out with the `TypeError` of line 132 instead of receiving
`"x"`. -/
theorem C1_move_frame_misses_stage_queue :
    ((move_frame oneRecordRedis "raw" "rotated" "x").1).lists "rotated_queue" = [] ∧
    ((move_frame oneRecordRedis "raw" "rotated" "x").1).lists "rotated" = ["x"] ∧
    (get_frame (move_frame oneRecordRedis "raw" "rotated" "x").1
        "rotated" true none 0).2 = .error .typeErrorNoneSubscript :=
  ⟨rfl, rfl, rfl⟩

/-- C6: atomic move.  If stage `A` holds record `r` under id `uuid`, the
destination key differs from the source key, and `r`'s payload decodes to
`f`, then after `move_frame A B uuid` succeeds: the record sits under
`B`'s key with all field contents untouched, the source key is gone, a
`get_frame A` with the explicit id fails with the missing-record error
(the `KeyError` realising the spec's `NotFoundError`), and a `get_frame B`
with the explicit id succeeds, returning the original frame and the
original metadata plus only the documented `get_frame_time` field. -/
theorem C6_atomic_move (s : RedisState) (A B uuid : String) (r : RecordHash)
    (f : PyFrame) (t : Nat)
    (hrec : s.hashes (A ++ ":" ++ uuid) = some r)
    (hkeys : A ++ ":" ++ uuid ≠ B ++ ":" ++ uuid)
    (hdec : decode_frame r.frame = .ok f) :
    (move_frame s A B uuid).2 = .ok () ∧
    ((move_frame s A B uuid).1).hashes (B ++ ":" ++ uuid) = some r ∧
    ((move_frame s A B uuid).1).hashes (A ++ ":" ++ uuid) = none ∧
    (get_frame (move_frame s A B uuid).1 A true (some uuid) t).2 =
      .error .keyErrorFrame ∧
    (get_frame (move_frame s A B uuid).1 B true (some uuid) t).2 =
      .ok { frame := f, metadata := dictInsert r.metadata "get_frame_time" (.num t) } := by
  have h2 : ((move_frame s A B uuid).1).hashes (B ++ ":" ++ uuid) = some r := by
    simp only [move_frame, hrec]
    simp
  have h3 : ((move_frame s A B uuid).1).hashes (A ++ ":" ++ uuid) = none := by
    simp only [move_frame, hrec]
    simp [hkeys]
  refine ⟨?_, h2, h3, ?_, ?_⟩
  · simp only [move_frame, hrec]
  · simp only [get_frame, get_frame_fetch, h3]
  · simp only [get_frame, get_frame_fetch, h2, hdec]

/-- Witness for C6: moving the concrete record `"raw:x"` to stage
`"rotated"`. -/
theorem C6_atomic_move_witness :
    (oneRecordRedis.hashes "raw:x" = some sampleRecord ∧
      ("raw" ++ ":" ++ "x" : String) ≠ "rotated" ++ ":" ++ "x" ∧
      decode_frame sampleRecord.frame = .ok sampleFrame) ∧
    ((move_frame oneRecordRedis "raw" "rotated" "x").2 = .ok () ∧
     ((move_frame oneRecordRedis "raw" "rotated" "x").1).hashes "rotated:x" =
       some sampleRecord ∧
     ((move_frame oneRecordRedis "raw" "rotated" "x").1).hashes "raw:x" = none ∧
     (get_frame (move_frame oneRecordRedis "raw" "rotated" "x").1
        "raw" true (some "x") 0).2 = .error .keyErrorFrame ∧
     (get_frame (move_frame oneRecordRedis "raw" "rotated" "x").1
        "rotated" true (some "x") 0).2 =
       .ok { frame := sampleFrame,
             metadata := dictInsert sampleRecord.metadata "get_frame_time" (.num 0) }) :=
  ⟨⟨by decide, by decide, rfl⟩,
   C6_atomic_move oneRecordRedis "raw" "rotated" "x" sampleRecord sampleFrame 0
     (by decide) (by decide) rfl⟩

/-- C7: capacity enforcement and disabled no-op.  When `current_size` has
reached the configured capacity, `add_image` returns the cache state
unchanged — no file written, `current_size` untouched; and whenever local
caching is disabled by configuration, `add_image` is a no-op on every
cache state regardless of `current_size`. -/
theorem C7_capacity_and_disabled (M : Nat) (root sid name : String)
    (c : LocalCache) (fsize : Nat)
    (hfull : M ≤ c.current_size) :
    add_image true M root sid c name fsize = c ∧
    ∀ (c2 : LocalCache) (fsize2 : Nat),
      add_image false M root sid c2 name fsize2 = c2 := by
  constructor
  · simp only [add_image]
    rw [if_neg (by decide), if_neg (by omega)]
  · intro c2 fsize2
    simp [add_image]

/-- Witness for C7 at a concrete full cache. -/
theorem C7_capacity_and_disabled_witness :
    (5 : Nat) ≤ (LocalCache.mk 5 [] : LocalCache).current_size ∧
    (add_image true 5 "/data" "s1" (LocalCache.mk 5 []) "n" 7 = LocalCache.mk 5 [] ∧
     ∀ (c2 : LocalCache) (fsize2 : Nat),
       add_image false 5 "/data" "s1" c2 "n" fsize2 = c2) :=
  ⟨by decide, C7_capacity_and_disabled 5 "/data" "s1" "n" (LocalCache.mk 5 []) 7 (by decide)⟩

/-- C8: evaluation of the code at the failing input.  Two successive
`add_image` calls that both omit `frame_name` (here on an enabled cache
far under capacity) both write to the path built from the single uuid
evaluated when the `def` statement ran: the write log shows the same path
twice, so the second call overwrites the first file, while `current_size`
nevertheless accumulates both write sizes. -/
theorem C8_default_name_reused :
    (add_image_defaulted true 1000 "/data" "s1"
        (add_image_defaulted true 1000 "/data" "s1" (LocalCache.mk 0 []) 7) 7).writes =
      [image_path "/data" "s1" def_time_uuid, image_path "/data" "s1" def_time_uuid] ∧
    (add_image_defaulted true 1000 "/data" "s1"
        (add_image_defaulted true 1000 "/data" "s1" (LocalCache.mk 0 []) 7) 7).current_size = 14 :=
  ⟨rfl, rfl⟩

/-- C9 counterexample: the invariant fails on a concrete three-step run.
`add_frame` enqueues id `"X"` on `"raw_queue"` and writes its record; a
`get_frame` with the explicit id `"X"` and delete-on-read then succeeds
and deletes the record — yet `"X"` is still sitting on `"raw_queue"`
afterwards, an id whose record has already been deleted, left pending for
a later blocking consumer. -/
theorem C9_counterexample :
    ((get_frame (add_frame emptyRedis "raw" sampleFrame [] "X" 0).state
        "raw" true (some "X") 0).1).lists "raw_queue" = ["X"] ∧
    ((get_frame (add_frame emptyRedis "raw" sampleFrame [] "X" 0).state
        "raw" true (some "X") 0).1).hashes "raw:X" = none ∧
    (get_frame (add_frame emptyRedis "raw" sampleFrame [] "X" 0).state
        "raw" true (some "X") 0).2 =
      .ok { frame := sampleFrame,
            metadata := [("rawUUID", .str "X"), ("get_frame_time", .num 0)] } :=
  ⟨rfl, rfl, rfl⟩

/-- C9 amended: `get_frame` with an explicit id never touches any queue,
so delete-on-read through an explicit id strands the id: after the call,
every list in the database (in particular the stage queue) is exactly as
before, while the record under `"{stage}:{id}"` is gone. -/
theorem C9_explicit_get_leaves_queues (s : RedisState) (stage uuid : String)
    (t : Nat) :
    ((get_frame s stage true (some uuid) t).1).lists = s.lists ∧
    ((get_frame s stage true (some uuid) t).1).hashes (stage ++ ":" ++ uuid) = none := by
  rcases hcase : s.hashes (stage ++ ":" ++ uuid) with _ | r
  · simp [get_frame, get_frame_fetch, hcase]
  · rcases hdec : decode_frame r.frame with e | f <;>
      simp [get_frame, get_frame_fetch, hcase, hdec]

/-- C10: `add_frame` mutates the caller's metadata mapping.  For every
frame whose dimensions the line-111 header pack accepts (uint32 bounds —
for larger dimensions `struct.error` is raised before the line-114
mutation and the mapping stays untouched), the call returns the uuid and
the mapping observable by the caller afterwards (`metadata_after`, the
explicit rendering of Python's in-place
`metadata[f"{queue_name}UUID"] = frame_uuid` on the aliased dict) is the
input mapping with the `"{stage}UUID"` key bound to the new id, and the
serialized metadata stored in the record is that same mutated mapping. -/
theorem C10_metadata_mutated_in_place (s : RedisState) (qn : String)
    (f : PyFrame) (m : List (String × MetaVal)) (uuid : String) (t : Nat)
    (hh : f.height < 2 ^ 32) (hw : f.width < 2 ^ 32) :
    (add_frame s qn f m uuid t).result = .ok uuid ∧
    (add_frame s qn f m uuid t).metadata_after =
      dictInsert m (qn ++ "UUID") (.str uuid) ∧
    (add_frame s qn f m uuid t).state.hashes (qn ++ ":" ++ uuid) =
      some { frame := encode_frame f,
             metadata := dictInsert m (qn ++ "UUID") (.str uuid),
             addFrameTime := t } := by
  have hcond : f.height < 2 ^ 32 ∧ f.width < 2 ^ 32 := ⟨hh, hw⟩
  refine ⟨?_, ?_, ?_⟩ <;>
    (simp only [add_frame]; rw [if_pos hcond]; try simp)

/-- Witness for C10 at the concrete frame `sampleFrame`. -/
theorem C10_metadata_mutated_in_place_witness :
    (sampleFrame.height < 2 ^ 32 ∧ sampleFrame.width < 2 ^ 32) ∧
    ((add_frame emptyRedis "raw" sampleFrame [("k", .str "v")] "X" 0).result = .ok "X" ∧
     (add_frame emptyRedis "raw" sampleFrame [("k", .str "v")] "X" 0).metadata_after =
       dictInsert [("k", .str "v")] "rawUUID" (.str "X") ∧
     (add_frame emptyRedis "raw" sampleFrame [("k", .str "v")] "X" 0).state.hashes "raw:X" =
       some { frame := encode_frame sampleFrame,
              metadata := dictInsert [("k", .str "v")] "rawUUID" (.str "X"),
              addFrameTime := 0 }) :=
  ⟨by decide,
   C10_metadata_mutated_in_place emptyRedis "raw" sampleFrame [("k", .str "v")] "X" 0
     (by decide) (by decide)⟩

